import Mathlib

/-!
Verification of `asphalt-serialization`'s `DefaultCustomTypeCodec`
(`src/asphalt/serialization/object_codec.py`) against its natural-language
specification.

The Python code is shallowly embedded as follows:
- primitive serializable values (null, bool, number, string, sequence,
  string-keyed composite) become the inductive `Value`; Python `None` and the
  serialized null coincide and are both `Value.null`;
- Python dictionaries become association lists with first-match lookup
  (Python dicts have unique keys, so first-match agrees with dict lookup);
  a two-entry dict literal collapses to one entry when its keys are equal,
  exactly as in Python;
- Python exceptions become an `Except PyErr` result; the `try/except KeyError`
  around a registry lookup becomes a `match` on the `Option` returned by the
  lookup, so an exception raised by a user-supplied function after the lookup
  can never be caught by that handler, mirroring the Python control flow;
- Python class objects become `PyClass` (fully qualified name plus the
  qualified names of the proper superclasses); `qualified_name(cls)` is the
  stored `qualname`; registry lookup compares classes for equality, mirroring
  the identity-keyed dict `serializer.marshallers`;
- arbitrary object instances become `PyObject`: a runtime class, an attribute
  dict, and a flag recording whether a normal initializer ever ran;
  `cls.__new__(cls)` is `pyNew`, which allocates with no attributes and with
  `ranInit = false`;
- an in-place unmarshaller `unmarshaller(instance, state)` is modelled as a
  function returning the instance as mutated; `default_decoder` returns that
  mutated instance, which matches the Python `return instance` after the
  in-place call;
- a decoded result is either a primitive `Value` passed through or a
  reconstructed `PyObject`; user-supplied marshallers and unmarshallers may
  raise, so they return `Except PyErr`;
- Python dict indexing hashes the key first: `unmarshallers[typename]` with a
  list- or dict-valued tag raises `TypeError: unhashable type` (which the
  surrounding `except KeyError` does not catch), and only a hashable tag
  reaches the key comparison; conversely a Python dict can never hold an
  unhashable key, an invariant `Serializer` carries explicitly.
-/

namespace AsphaltSerialization

/-- Python exceptions that can arise in the codec: dynamic-typing errors from
applying `len`/`.get` to unsupported values, the codec's own `LookupError`s,
and errors raised by user-supplied functions (a user `KeyError` kept distinct
so that non-translation of user errors is expressible). -/
inductive PyErr where
  | typeError (msg : String)
  | attributeError (msg : String)
  | lookupError (msg : String)
  | keyError (msg : String)
  | userError (msg : String)
deriving DecidableEq

/-- Primitive serializable values: null, booleans, numbers, strings, ordered
sequences and string-keyed composites (dicts). Numbers are modelled as
integers; no claim depends on non-integral numerics. -/
inductive Value where
  | null : Value
  | bool (b : Bool) : Value
  | num (n : Int) : Value
  | str (s : String) : Value
  | seq (xs : List Value) : Value
  | comp (entries : List (String × Value)) : Value

mutual

/-- Decidable equality for `Value`, written by hand because automatic deriving
does not handle the nesting through lists. -/
def Value.decEq : (a b : Value) → Decidable (a = b)
  | .null, .null => isTrue rfl
  | .bool x, .bool y =>
    if h : x = y then isTrue (h ▸ rfl)
    else isFalse (fun hh => h (Value.bool.inj hh))
  | .num x, .num y =>
    if h : x = y then isTrue (h ▸ rfl)
    else isFalse (fun hh => h (Value.num.inj hh))
  | .str x, .str y =>
    if h : x = y then isTrue (h ▸ rfl)
    else isFalse (fun hh => h (Value.str.inj hh))
  | .seq xs, .seq ys =>
    match Value.decEqList xs ys with
    | isTrue h => isTrue (h ▸ rfl)
    | isFalse h => isFalse (fun hh => h (Value.seq.inj hh))
  | .comp es, .comp fs =>
    match Value.decEqEntries es fs with
    | isTrue h => isTrue (h ▸ rfl)
    | isFalse h => isFalse (fun hh => h (Value.comp.inj hh))
  | .null, .bool _ => isFalse (fun h => Value.noConfusion h)
  | .null, .num _ => isFalse (fun h => Value.noConfusion h)
  | .null, .str _ => isFalse (fun h => Value.noConfusion h)
  | .null, .seq _ => isFalse (fun h => Value.noConfusion h)
  | .null, .comp _ => isFalse (fun h => Value.noConfusion h)
  | .bool _, .null => isFalse (fun h => Value.noConfusion h)
  | .bool _, .num _ => isFalse (fun h => Value.noConfusion h)
  | .bool _, .str _ => isFalse (fun h => Value.noConfusion h)
  | .bool _, .seq _ => isFalse (fun h => Value.noConfusion h)
  | .bool _, .comp _ => isFalse (fun h => Value.noConfusion h)
  | .num _, .null => isFalse (fun h => Value.noConfusion h)
  | .num _, .bool _ => isFalse (fun h => Value.noConfusion h)
  | .num _, .str _ => isFalse (fun h => Value.noConfusion h)
  | .num _, .seq _ => isFalse (fun h => Value.noConfusion h)
  | .num _, .comp _ => isFalse (fun h => Value.noConfusion h)
  | .str _, .null => isFalse (fun h => Value.noConfusion h)
  | .str _, .bool _ => isFalse (fun h => Value.noConfusion h)
  | .str _, .num _ => isFalse (fun h => Value.noConfusion h)
  | .str _, .seq _ => isFalse (fun h => Value.noConfusion h)
  | .str _, .comp _ => isFalse (fun h => Value.noConfusion h)
  | .seq _, .null => isFalse (fun h => Value.noConfusion h)
  | .seq _, .bool _ => isFalse (fun h => Value.noConfusion h)
  | .seq _, .num _ => isFalse (fun h => Value.noConfusion h)
  | .seq _, .str _ => isFalse (fun h => Value.noConfusion h)
  | .seq _, .comp _ => isFalse (fun h => Value.noConfusion h)
  | .comp _, .null => isFalse (fun h => Value.noConfusion h)
  | .comp _, .bool _ => isFalse (fun h => Value.noConfusion h)
  | .comp _, .num _ => isFalse (fun h => Value.noConfusion h)
  | .comp _, .str _ => isFalse (fun h => Value.noConfusion h)
  | .comp _, .seq _ => isFalse (fun h => Value.noConfusion h)

/-- Decidable equality for lists of values. -/
def Value.decEqList : (a b : List Value) → Decidable (a = b)
  | [], [] => isTrue rfl
  | [], _ :: _ => isFalse (fun h => List.noConfusion h)
  | _ :: _, [] => isFalse (fun h => List.noConfusion h)
  | x :: xs, y :: ys =>
    match Value.decEq x y, Value.decEqList xs ys with
    | isTrue h1, isTrue h2 => isTrue (by rw [h1, h2])
    | isFalse h1, _ => isFalse (fun h => h1 (List.cons.inj h).1)
    | _, isFalse h2 => isFalse (fun h => h2 (List.cons.inj h).2)

/-- Decidable equality for composite entry lists. -/
def Value.decEqEntries : (a b : List (String × Value)) → Decidable (a = b)
  | [], [] => isTrue rfl
  | [], _ :: _ => isFalse (fun h => List.noConfusion h)
  | _ :: _, [] => isFalse (fun h => List.noConfusion h)
  | (k1, v1) :: xs, (k2, v2) :: ys =>
    if hk : k1 = k2 then
      match Value.decEq v1 v2, Value.decEqEntries xs ys with
      | isTrue h1, isTrue h2 => isTrue (by rw [hk, h1, h2])
      | isFalse h1, _ =>
        isFalse (fun h => h1 (congrArg Prod.snd (List.cons.inj h).1))
      | _, isFalse h2 => isFalse (fun h => h2 (List.cons.inj h).2)
    else
      isFalse (fun h => hk (congrArg Prod.fst (List.cons.inj h).1))

end

instance : DecidableEq Value := Value.decEq

/-- First-match lookup in an association list, as `Option`; models Python dict
indexing (unique keys make first-match exact). -/
def dictGet : List (String × Value) → String → Option Value
  | [], _ => none
  | (k, v) :: rest, key => if k = key then some v else dictGet rest key

/-- Python's `dict.get(key)`: the stored value, or `None` when the key is
absent. Since Python `None` is `Value.null`, the `Option` collapses to
`Value`, exactly as `obj.get(k)` behaves in `unwrap_state_dict`. -/
def pyGet (entries : List (String × Value)) (key : String) : Value :=
  (dictGet entries key).getD Value.null

/-- Python's `len(obj)`: defined for strings, sequences and composites; raises
`TypeError` on null, booleans and numbers. -/
def pyLen : Value → Except PyErr Nat
  | Value.str s => Except.ok s.length
  | Value.seq xs => Except.ok xs.length
  | Value.comp es => Except.ok es.length
  | _ => Except.error (PyErr.typeError "object has no len()")

mutual

/-- Python `repr` of a primitive value, used by f-string interpolation of
non-string values in error messages. -/
def pyRepr : Value → String
  | Value.null => "None"
  | Value.bool b => if b then "True" else "False"
  | Value.num n => toString n
  | Value.str s => "\x27" ++ s ++ "\x27"
  | Value.seq xs => "[" ++ pyReprList xs ++ "]"
  | Value.comp es => "\x7b" ++ pyReprEntries es ++ "\x7d"

/-- Comma-separated `repr`s of the elements of a sequence. -/
def pyReprList : List Value → String
  | [] => ""
  | [v] => pyRepr v
  | v :: rest => pyRepr v ++ ", " ++ pyReprList rest

/-- Comma-separated `repr`s of the entries of a composite. -/
def pyReprEntries : List (String × Value) → String
  | [] => ""
  | [(k, v)] => "\x27" ++ k ++ "\x27: " ++ pyRepr v
  | (k, v) :: rest => "\x27" ++ k ++ "\x27: " ++ pyRepr v ++ ", " ++ pyReprEntries rest

end

/-- Python `str` of a primitive value, as f-string interpolation applies it:
a string interpolates bare, anything else via its `repr`. -/
def pyStr : Value → String
  | Value.str s => s
  | v => pyRepr v

/-- A Python class: its fully qualified name (what `qualified_name` returns)
and the qualified names of its proper superclasses. Distinct classes have
distinct qualified names. -/
structure PyClass where
  qualname : String
  bases : List String
deriving DecidableEq

/-- An object instance: its runtime class (`obj.__class__`), its attribute
dict, and whether a normal initializer ran on it. -/
structure PyObject where
  cls : PyClass
  attrs : List (String × Value)
  ranInit : Bool
deriving DecidableEq

/-- Python `cls.__new__(cls)`: allocate an instance of `cls` without running
any constructor or initializer — no attributes are set and `ranInit` stays
false. -/
def pyNew (cls : PyClass) : PyObject :=
  ⟨cls, [], false⟩

/-- Result of `default_decoder`: either a primitive value passed through (or
produced by a class-less unmarshaller) or a reconstructed object instance. -/
inductive Decoded where
  | prim (v : Value) : Decoded
  | obj (o : PyObject) : Decoded
deriving DecidableEq

/-- First-match lookup in an association table with a decidable key type;
models Python dict indexing on the registry tables (`none` corresponds to the
`KeyError` branch of the surrounding `try`). -/
def tableGet {α β : Type} [DecidableEq α] : List (α × β) → α → Option β
  | [], _ => none
  | (k, v) :: rest, key => if k = key then some v else tableGet rest key

/-- An entry of `serializer.marshallers`: the registered tuple
`(typename, marshaller, wrap_state)`, keyed by runtime class. The marshal
function is user-supplied and may raise. -/
structure MarshalEntry where
  typename : String
  marshaller : PyObject → Except PyErr Value
  wrap_state : Bool

/-- An entry of `serializer.unmarshallers`: the registered tuple
`(cls, unmarshaller)`. When `cls` is present the unmarshaller receives a
pre-allocated instance and populates it in place (modelled by returning the
mutated instance); when `cls` is absent it receives only the state and
constructs the result itself. Either function is user-supplied and may
raise. -/
inductive UnmarshalEntry where
  | withClass (cls : PyClass)
      (unmarshaller : PyObject → Value → Except PyErr PyObject) : UnmarshalEntry
  | noClass (unmarshaller : Value → Except PyErr Decoded) : UnmarshalEntry

/-- Hashability of a primitive value as a Python dict key: null, booleans,
numbers and strings are hashable; lists and dicts are not. Looking an
unhashable value up in a dict raises `TypeError` before any key comparison. -/
def pyHashable : Value → Bool
  | Value.seq _ => false
  | Value.comp _ => false
  | _ => true

/-- The associated serializer, reduced to the two registry tables the codec
reads: `marshallers` keyed by runtime class and `unmarshallers` keyed by the
type-name value used at registration (a string in practice; the key type is
`Value` because decode looks wire tags up in this table). Since a Python dict
cannot contain an unhashable key, the table carries that invariant. -/
structure Serializer where
  marshallers : List (PyClass × MarshalEntry)
  unmarshallers : List (Value × UnmarshalEntry)
  unmarshallers_hashable : ∀ p ∈ unmarshallers, pyHashable p.1 = true

/-- The codec's own state: the two key names fixed at construction
(`type_key` defaulting to "__type__", `state_key` to "state"). `__init__`
installs `wrap_state_dict` and `unwrap_state_dict` as the wrap/unwrap
callbacks, so the default methods below stand for the callbacks wherever the
encoder and decoder invoke them. -/
structure Codec where
  type_key : String
  state_key : String
deriving DecidableEq

/-- The codec as constructed with the default key arguments. -/
def defaultCodec : Codec := ⟨"__type__", "state"⟩

/-- Python dict literal with two (possibly equal) keys, as in
`\x7bself.type_key: typename, self.state_key: state\x7d`: a later binding of
an equal key overwrites the earlier one. -/
def dictLit2 (k1 : String) (v1 : Value) (k2 : String) (v2 : Value) :
    List (String × Value) :=
  if k1 = k2 then [(k1, v2)] else [(k1, v1), (k2, v2)]

/-- `DefaultCustomTypeCodec.wrap_state_dict`: wrap the marshalled state in a
dictionary under the configured `type_key` and `state_key`. -/
def wrap_state_dict (c : Codec) (typename : String) (state : Value) : Value :=
  Value.comp (dictLit2 c.type_key (Value.str typename) c.state_key state)

/-- `DefaultCustomTypeCodec.unwrap_state_dict`: recognize a value wrapped by
`wrap_state_dict`. Python's `len(obj)` is computed first (raising `TypeError`
on values with no length); on length 2 both `obj.get` calls run (raising
`AttributeError` when `obj` is not a dict); the pair `(typename, state)` is
returned when the tag slot is non-null, the sentinel `(None, None)` —
`(Value.null, Value.null)` here — otherwise. -/
def unwrap_state_dict (c : Codec) (obj : Value) : Except PyErr (Value × Value) := do
  let n ← pyLen obj
  if n = 2 then
    match obj with
    | Value.comp es =>
      let typename := pyGet es c.type_key
      let state := pyGet es c.state_key
      match typename with
      | Value.null => pure (Value.null, Value.null)
      | t => pure (t, state)
    | _ => Except.error (PyErr.attributeError "object has no attribute get")
  else
    pure (Value.null, Value.null)

/-- `DefaultCustomTypeCodec.default_encoder`: look the instance's runtime
class up in `serializer.marshallers` (the `except KeyError` branch raises
`LookupError` with the class's qualified name), marshal, and wrap the state
when the entry's wrap flag is set. -/
def default_encoder (c : Codec) (s : Serializer) (obj : PyObject) :
    Except PyErr Value :=
  match tableGet s.marshallers obj.cls with
  | none =>
    Except.error (PyErr.lookupError
      ("no marshaller found for type \"" ++ obj.cls.qualname ++ "\""))
  | some entry => do
    let state ← entry.marshaller obj
    pure (if entry.wrap_state then wrap_state_dict c entry.typename state else state)

/-- `DefaultCustomTypeCodec.default_decoder`: unwrap the value; on the
sentinel pass it through, otherwise look the tag up in
`serializer.unmarshallers`. The dict indexing hashes the tag first, so a
list- or dict-valued tag raises `TypeError: unhashable type`, which the
`except KeyError` handler does not catch; for a hashable tag a miss raises
`KeyError`, translated by the handler into `LookupError` with the unresolved
name. On a hit, reconstruct: with a registered class, allocate with `pyNew`
and populate in place; without one, call the unmarshaller on the state
directly. -/
def default_decoder (c : Codec) (s : Serializer) (obj : Value) :
    Except PyErr Decoded := do
  let (typename, marshalled_state) ← unwrap_state_dict c obj
  match typename with
  | Value.null => pure (Decoded.prim obj)
  | Value.seq _ =>
    Except.error (PyErr.typeError "unhashable type: \x27list\x27")
  | Value.comp _ =>
    Except.error (PyErr.typeError "unhashable type: \x27dict\x27")
  | t =>
    match tableGet s.unmarshallers t with
    | none =>
      Except.error (PyErr.lookupError
        ("no unmarshaller found for type \"" ++ pyStr t ++ "\""))
    | some (UnmarshalEntry.withClass cls unmarshaller) => do
      let inst ← unmarshaller (pyNew cls) marshalled_state
      pure (Decoded.obj inst)
    | some (UnmarshalEntry.noClass unmarshaller) =>
      unmarshaller marshalled_state

/-- Application of a found unmarshal entry to a marshalled state, exactly as
the tail of `default_decoder` performs it: with a registered class, allocate
an uninitialized instance, populate it in place and return it; without one,
hand the state to the unmarshal function and return its result. -/
def applyUnmarshal : UnmarshalEntry → Value → Except PyErr Decoded
  | UnmarshalEntry.withClass cls f, st => do
    let inst ← f (pyNew cls) st
    pure (Decoded.obj inst)
  | UnmarshalEntry.noClass g, st => g st

/-- The round-trip hypothesis of the spec, per unmarshal-entry kind: the
registered unmarshaller inverts the marshalled state `st` back to the object
`x` (the spec's per-type observable equality is structural equality of the
model object). -/
def entryInverts : UnmarshalEntry → Value → PyObject → Prop
  | UnmarshalEntry.withClass cls f, st, x => f (pyNew cls) st = Except.ok x
  | UnmarshalEntry.noClass g, st, x => g st = Except.ok (Decoded.obj x)

/-- A codec constructed with the custom keys of the spec's custom-key
scenario: `type_key="t"`, `state_key="s"`. -/
def customCodec : Codec := ⟨"t", "s"⟩

/-- A serializer with no registrations at all. -/
def emptySer : Serializer := ⟨[], [], by intro q hq; cases hq⟩

/-- Fixture class standing for a registered application type. -/
def clsPoint : PyClass := ⟨"tests.Point", []⟩

/-- Fixture marshaller: the instance's attribute dict as a composite. -/
def marshalPoint : PyObject → Except PyErr Value :=
  fun o => Except.ok (Value.comp o.attrs)

/-- Fixture in-place unmarshaller: sets the attributes of the pre-allocated
instance from a composite state, raising on any other state shape. -/
def unmarshalPoint : PyObject → Value → Except PyErr PyObject :=
  fun inst st =>
    match st with
    | Value.comp es => Except.ok ⟨inst.cls, es, inst.ranInit⟩
    | _ => Except.error (PyErr.userError "state is not a dict")

/-- Fixture instance of `clsPoint` with attributes `x = 1`, `y = 2` (built by
populating a raw allocation, so `ranInit` is false). -/
def pointObj : PyObject :=
  ⟨clsPoint, [("x", Value.num 1), ("y", Value.num 2)], false⟩

/-- Marshalled state of `pointObj`. -/
def pointState : Value :=
  Value.comp [("x", Value.num 1), ("y", Value.num 2)]

/-- Fixture serializer registering `clsPoint` under the name "Point" with
wrapping enabled and an in-place unmarshaller. -/
def serPoint : Serializer :=
  ⟨[(clsPoint, ⟨"Point", marshalPoint, true⟩)],
   [(Value.str "Point", UnmarshalEntry.withClass clsPoint unmarshalPoint)],
   by intro q hq; rw [List.mem_singleton] at hq; subst hq; rfl⟩

/-- Fixture marshaller that produces a bare (unwrapped) string state. -/
def bareMarshal : PyObject → Except PyErr Value :=
  fun _ => Except.ok (Value.str "hello")

/-- Fixture class-less unmarshaller inverting `bareMarshal` on `pointObj`. -/
def bareUnmarshal : Value → Except PyErr Decoded :=
  fun _ => Except.ok (Decoded.obj pointObj)

/-- Fixture serializer registering `clsPoint` with `wrap_state = false` and a
class-less unmarshaller that inverts the marshaller. -/
def serBare : Serializer :=
  ⟨[(clsPoint, ⟨"Point", bareMarshal, false⟩)],
   [(Value.str "Point", UnmarshalEntry.noClass bareUnmarshal)],
   by intro q hq; rw [List.mem_singleton] at hq; subst hq; rfl⟩

/-- Fixture marshaller raising a user `KeyError`. -/
def failMarshal : PyObject → Except PyErr Value :=
  fun _ => Except.error (PyErr.keyError "x")

/-- Fixture class-less unmarshaller raising a user `KeyError`. -/
def failUnmarshal : Value → Except PyErr Decoded :=
  fun _ => Except.error (PyErr.keyError "y")

/-- Fixture serializer whose user-supplied functions raise `KeyError`s. -/
def serFail : Serializer :=
  ⟨[(clsPoint, ⟨"Point", failMarshal, true⟩)],
   [(Value.str "Point", UnmarshalEntry.noClass failUnmarshal)],
   by intro q hq; rw [List.mem_singleton] at hq; subst hq; rfl⟩

/-- Fixture base class. -/
def clsBase : PyClass := ⟨"tests.Base", []⟩

/-- Fixture subclass of `clsBase`. -/
def clsDerived : PyClass := ⟨"tests.Derived", ["tests.Base"]⟩

/-- Fixture serializer registering only the base class `clsBase`. -/
def serBaseOnly : Serializer :=
  ⟨[(clsBase, ⟨"Base", marshalPoint, true⟩)], [], by intro q hq; cases hq⟩

/-- A wrapped composite naming a type with no registered unmarshaller. -/
def taggedMissing : Value :=
  Value.comp [("__type__", Value.str "Missing"), ("state", Value.null)]

/-- Fixture instance of the subclass `clsDerived`. -/
def derivedObj : PyObject := ⟨clsDerived, [], true⟩

/-- A recognized tagged composite whose tag slot holds a dict — an unhashable
value as a type name. -/
def dictTagged : Value :=
  Value.comp [("__type__", Value.comp [("a", Value.num 1)]),
              ("state", Value.num 2)]

deriving instance DecidableEq for Except

/-- Unwrapping inverts wrapping whenever the two configured keys differ. -/
theorem unwrap_wrap (c : Codec) (h : c.type_key ≠ c.state_key)
    (tn : String) (st : Value) :
    unwrap_state_dict c (wrap_state_dict c tn st) =
      Except.ok (Value.str tn, st) := by
  simp [wrap_state_dict, dictLit2, h, unwrap_state_dict, pyLen, pyGet, dictGet,
    Bind.bind, Except.bind, Pure.pure, Except.pure]

/-- A composite that does not have exactly two entries, or whose tag slot is
absent or null, unwraps to the sentinel. -/
theorem unwrap_comp_not_tagged (c : Codec) (es : List (String × Value))
    (h : es.length ≠ 2 ∨ pyGet es c.type_key = Value.null) :
    unwrap_state_dict c (Value.comp es) = Except.ok (Value.null, Value.null) := by
  by_cases hlen : es.length = 2
  · rcases h with h | h
    · exact absurd hlen h
    · simp [unwrap_state_dict, pyLen, Bind.bind, Except.bind, Pure.pure,
        Except.pure, hlen, h]
  · simp [unwrap_state_dict, pyLen, Bind.bind, Except.bind, Pure.pure,
      Except.pure, hlen]

/-- A two-entry composite with a non-null tag slot unwraps to the tag and the
(possibly absent, hence null) state slot. -/
theorem unwrap_comp_tagged (c : Codec) (es : List (String × Value)) (t : Value)
    (hlen : es.length = 2) (ht : pyGet es c.type_key = t) (hne : t ≠ Value.null) :
    unwrap_state_dict c (Value.comp es) =
      Except.ok (t, pyGet es c.state_key) := by
  cases t with
  | null => exact absurd rfl hne
  | _ =>
    simp [unwrap_state_dict, pyLen, Bind.bind, Except.bind, Pure.pure,
      Except.pure, hlen, ht]

/-- A string whose length is not two unwraps to the sentinel. -/
theorem unwrap_str_not2 (c : Codec) (t : String) (hs : t.length ≠ 2) :
    unwrap_state_dict c (Value.str t) = Except.ok (Value.null, Value.null) := by
  simp [unwrap_state_dict, pyLen, Bind.bind, Except.bind, Pure.pure,
    Except.pure, hs]

/-- A sequence whose length is not two unwraps to the sentinel. -/
theorem unwrap_seq_not2 (c : Codec) (xs : List Value) (hxs : xs.length ≠ 2) :
    unwrap_state_dict c (Value.seq xs) = Except.ok (Value.null, Value.null) := by
  simp [unwrap_state_dict, pyLen, Bind.bind, Except.bind, Pure.pure,
    Except.pure, hxs]

/-- The decoder passes a value through whenever unwrapping yields a null tag. -/
theorem default_decoder_sentinel (c : Codec) (s : Serializer) (v w : Value)
    (hu : unwrap_state_dict c v = Except.ok (Value.null, w)) :
    default_decoder c s v = Except.ok (Decoded.prim v) := by
  unfold default_decoder
  rw [hu]
  simp [Bind.bind, Except.bind, Pure.pure, Except.pure]

/-- A lookup that returns an entry found its key among the stored keys. -/
theorem tableGet_some_mem {α β : Type} [DecidableEq α] (l : List (α × β))
    (key : α) (v : β) (h : tableGet l key = some v) :
    ∃ p ∈ l, p.1 = key := by
  induction l with
  | nil => simp [tableGet] at h
  | cons hd tl ih =>
    obtain ⟨k, w⟩ := hd
    by_cases hk : k = key
    · exact ⟨(k, w), List.mem_cons_self _ _, hk⟩
    · simp only [tableGet, if_neg hk] at h
      obtain ⟨p, hp, hpk⟩ := ih h
      exact ⟨p, List.mem_cons_of_mem _ hp, hpk⟩

/-- Any tag that resolves in the unmarshal table is hashable, because a Python
dict cannot contain an unhashable key. -/
theorem unmarshal_key_hashable (s : Serializer) (t : Value) (e : UnmarshalEntry)
    (h : tableGet s.unmarshallers t = some e) : pyHashable t = true := by
  obtain ⟨p, hp, hpk⟩ := tableGet_some_mem _ _ _ h
  exact hpk ▸ s.unmarshallers_hashable p hp

/-- The decoder raises the unknown-tag `LookupError` whenever unwrapping
yields a non-null hashable tag that is absent from the unmarshal table. -/
theorem default_decoder_unknown (c : Codec) (s : Serializer) (v t st : Value)
    (hu : unwrap_state_dict c v = Except.ok (t, st)) (ht : t ≠ Value.null)
    (hhash : pyHashable t = true)
    (hl : tableGet s.unmarshallers t = none) :
    default_decoder c s v = Except.error (PyErr.lookupError
      ("no unmarshaller found for type \"" ++ pyStr t ++ "\"")) := by
  unfold default_decoder
  rw [hu]
  cases t with
  | null => exact absurd rfl ht
  | seq xs => simp [pyHashable] at hhash
  | comp es => simp [pyHashable] at hhash
  | _ => simp [Bind.bind, Except.bind, hl]

/-- The decoder raises the uncaught `TypeError` from hashing a list-valued
tag before any table lookup. -/
theorem default_decoder_unhashable_seq (c : Codec) (s : Serializer)
    (v st : Value) (xs : List Value)
    (hu : unwrap_state_dict c v = Except.ok (Value.seq xs, st)) :
    default_decoder c s v =
      Except.error (PyErr.typeError "unhashable type: \x27list\x27") := by
  unfold default_decoder
  rw [hu]
  simp [Bind.bind, Except.bind]

/-- The decoder raises the uncaught `TypeError` from hashing a dict-valued
tag before any table lookup. -/
theorem default_decoder_unhashable_comp (c : Codec) (s : Serializer)
    (v st : Value) (fs : List (String × Value))
    (hu : unwrap_state_dict c v = Except.ok (Value.comp fs, st)) :
    default_decoder c s v =
      Except.error (PyErr.typeError "unhashable type: \x27dict\x27") := by
  unfold default_decoder
  rw [hu]
  simp [Bind.bind, Except.bind]

/-- The decoder applies the found unmarshal entry whenever unwrapping yields a
non-null tag that resolves in the unmarshal table (such a tag is necessarily
hashable). -/
theorem default_decoder_found (c : Codec) (s : Serializer) (v t st : Value)
    (e : UnmarshalEntry)
    (hu : unwrap_state_dict c v = Except.ok (t, st)) (ht : t ≠ Value.null)
    (hl : tableGet s.unmarshallers t = some e) :
    default_decoder c s v = applyUnmarshal e st := by
  have hhash := unmarshal_key_hashable s t e hl
  unfold default_decoder
  rw [hu]
  cases t with
  | null => exact absurd rfl ht
  | seq xs => simp [pyHashable] at hhash
  | comp es => simp [pyHashable] at hhash
  | _ => cases e <;> simp [Bind.bind, Except.bind, hl, applyUnmarshal]

/-- The encoder raises the unknown-type `LookupError` exactly on a failed
class lookup.  -/
theorem default_encoder_unknown (c : Codec) (s : Serializer) (x : PyObject)
    (h : tableGet s.marshallers x.cls = none) :
    default_encoder c s x = Except.error (PyErr.lookupError
      ("no marshaller found for type \"" ++ x.cls.qualname ++ "\"")) := by
  unfold default_encoder
  rw [h]

/-- The encoder marshals and conditionally wraps whenever the class lookup
succeeds. -/
theorem default_encoder_found (c : Codec) (s : Serializer) (x : PyObject)
    (e : MarshalEntry) (h : tableGet s.marshallers x.cls = some e) :
    default_encoder c s x = (do
      let st ← e.marshaller x
      pure (if e.wrap_state then wrap_state_dict c e.typename st else st)) := by
  unfold default_encoder
  rw [h]

/-- C1 (counterexample): with `wrap_state = false` the claim's premises hold —
`pointObj`'s class is registered with marshaller `bareMarshal` and wrap flag
false, and the registered unmarshaller inverts the marshalled state — yet
`default_decoder (default_encoder pointObj)` yields the bare state passed
through, not a value equal to `pointObj`. -/
theorem C1_counterexample :
    tableGet serBare.marshallers pointObj.cls =
      some ⟨"Point", bareMarshal, false⟩ ∧
    tableGet serBare.unmarshallers (Value.str "Point") =
      some (UnmarshalEntry.noClass bareUnmarshal) ∧
    bareMarshal pointObj = Except.ok (Value.str "hello") ∧
    entryInverts (UnmarshalEntry.noClass bareUnmarshal) (Value.str "hello")
      pointObj ∧
    default_encoder defaultCodec serBare pointObj =
      Except.ok (Value.str "hello") ∧
    default_decoder defaultCodec serBare (Value.str "hello") =
      Except.ok (Decoded.prim (Value.str "hello")) ∧
    Decoded.prim (Value.str "hello") ≠ Decoded.obj pointObj :=
  ⟨rfl, rfl, rfl, rfl, rfl, rfl, by decide⟩

/-- C1 (amended): for every type registered with `wrap_state = true` and an
unmarshaller that inverts the marshaller, and distinct configured keys,
`default_decoder (default_encoder x)` yields the object `x` back. -/
theorem C1_round_trip (c : Codec) (s : Serializer) (x : PyObject)
    (tn : String) (m : PyObject → Except PyErr Value) (st : Value)
    (e : UnmarshalEntry)
    (hkeys : c.type_key ≠ c.state_key)
    (hm : tableGet s.marshallers x.cls = some ⟨tn, m, true⟩)
    (hmx : m x = Except.ok st)
    (hu : tableGet s.unmarshallers (Value.str tn) = some e)
    (hinv : entryInverts e st x) :
    ∃ w, default_encoder c s x = Except.ok w ∧
      default_decoder c s w = Except.ok (Decoded.obj x) := by
  refine ⟨wrap_state_dict c tn st, ?_, ?_⟩
  · rw [default_encoder_found c s x ⟨tn, m, true⟩ hm]
    simp [Bind.bind, Except.bind, hmx, Pure.pure, Except.pure]
  · rw [default_decoder_found c s (wrap_state_dict c tn st) (Value.str tn) st e
      (unwrap_wrap c hkeys tn st) (fun h => Value.noConfusion h) hu]
    cases e with
    | withClass cls f =>
      simp only [entryInverts] at hinv
      simp [applyUnmarshal, hinv, Bind.bind, Except.bind, Pure.pure, Except.pure]
    | noClass g =>
      simp only [entryInverts] at hinv
      simpa [applyUnmarshal] using hinv

/-- C1 (witness): the amended round trip at the concrete `pointObj` through
`serPoint` with the default codec. -/
theorem C1_round_trip_witness :
    ∃ w, default_encoder defaultCodec serPoint pointObj = Except.ok w ∧
      default_decoder defaultCodec serPoint w =
        Except.ok (Decoded.obj pointObj) :=
  C1_round_trip defaultCodec serPoint pointObj "Point" marshalPoint pointState
    (UnmarshalEntry.withClass clsPoint unmarshalPoint)
    (by decide) rfl rfl rfl rfl

/-- C2 (counterexample): the claim quantifies over every primitive value, but
`default_decoder` on the number 5 raises a `TypeError` from `len(obj)` instead
of returning the value unchanged. -/
theorem C2_counterexample :
    default_decoder defaultCodec emptySer (Value.num 5) =
      Except.error (PyErr.typeError "object has no len()") ∧
    default_decoder defaultCodec emptySer (Value.num 5) ≠
      Except.ok (Decoded.prim (Value.num 5)) :=
  ⟨rfl, by decide⟩

/-- C2 (amended): pass-through holds for every key-value composite that is not
a two-entry composite with a present non-null value at the configured
`type_key`, and for every string or sequence whose length is not two; null,
boolean and number inputs (and length-two strings and sequences) instead raise
a dynamic-typing error inside `unwrap_state_dict`. -/
theorem C2_passthrough (c : Codec) (s : Serializer)
    (es : List (String × Value)) (t : String) (xs : List Value) :
    (es.length ≠ 2 ∨ pyGet es c.type_key = Value.null →
      default_decoder c s (Value.comp es) =
        Except.ok (Decoded.prim (Value.comp es))) ∧
    (t.length ≠ 2 →
      default_decoder c s (Value.str t) =
        Except.ok (Decoded.prim (Value.str t))) ∧
    (xs.length ≠ 2 →
      default_decoder c s (Value.seq xs) =
        Except.ok (Decoded.prim (Value.seq xs))) := by
  refine ⟨fun h => ?_, fun h => ?_, fun h => ?_⟩
  · exact default_decoder_sentinel c s _ _ (unwrap_comp_not_tagged c es h)
  · exact default_decoder_sentinel c s _ _ (unwrap_str_not2 c t h)
  · exact default_decoder_sentinel c s _ _ (unwrap_seq_not2 c xs h)

/-- C2 (witness): a one-entry composite passes through unchanged. -/
theorem C2_passthrough_witness :
    default_decoder defaultCodec emptySer (Value.comp [("a", Value.num 1)]) =
      Except.ok (Decoded.prim (Value.comp [("a", Value.num 1)])) :=
  (C2_passthrough defaultCodec emptySer [("a", Value.num 1)] "abc" []).1
    (Or.inl (by decide))

/-- C3 (confirmed): `wrap_state_dict` always yields a composite whose key set
is exactly the two configured keys (with distinct keys, literally the
two-entry composite), and `unwrap_state_dict` on any composite lacking the
type key, holding null there, or not having exactly two entries returns the
sentinel. -/
theorem C3_tag_shape (c : Codec) (t : String) (s : Value)
    (es : List (String × Value)) :
    (∃ fs, wrap_state_dict c t s = Value.comp fs ∧
      (fs.map Prod.fst).toFinset = {c.type_key, c.state_key}) ∧
    (c.type_key ≠ c.state_key →
      wrap_state_dict c t s =
        Value.comp [(c.type_key, Value.str t), (c.state_key, s)]) ∧
    (es.length ≠ 2 ∨ pyGet es c.type_key = Value.null →
      unwrap_state_dict c (Value.comp es) =
        Except.ok (Value.null, Value.null)) := by
  refine ⟨⟨dictLit2 c.type_key (Value.str t) c.state_key s, rfl, ?_⟩,
    fun h => ?_, fun h => unwrap_comp_not_tagged c es h⟩
  · by_cases h : c.type_key = c.state_key <;> simp [dictLit2, h]
  · simp [wrap_state_dict, dictLit2, h]

/-- C3 (witness): the wrap shape and the unwrap sentinel at concrete inputs
under the default keys. -/
theorem C3_tag_shape_witness :
    wrap_state_dict defaultCodec "Point" pointState =
      Value.comp [("__type__", Value.str "Point"), ("state", pointState)] ∧
    unwrap_state_dict defaultCodec (Value.comp [("a", Value.num 1)]) =
      Except.ok (Value.null, Value.null) := by
  have h := C3_tag_shape defaultCodec "Point" pointState [("a", Value.num 1)]
  exact ⟨h.2.1 (by decide), h.2.2 (Or.inl (by decide))⟩

/-- C4 (counterexample): a recognized tagged composite whose tag slot holds a
dict — `dictTagged` is two entries with a non-null tag, and that tag has no
entry in the unmarshal table — makes `default_decoder` raise the uncaught
`TypeError` from hashing the tag at `unmarshallers[typename]`, not the
codec's `LookupError` carrying the name. -/
theorem C4_counterexample :
    unwrap_state_dict defaultCodec dictTagged =
      Except.ok (Value.comp [("a", Value.num 1)], Value.num 2) ∧
    tableGet emptySer.unmarshallers (Value.comp [("a", Value.num 1)]) = none ∧
    default_decoder defaultCodec emptySer dictTagged =
      Except.error (PyErr.typeError "unhashable type: \x27dict\x27") ∧
    default_decoder defaultCodec emptySer dictTagged ≠
      Except.error (PyErr.lookupError
        ("no unmarshaller found for type \"" ++
          pyStr (Value.comp [("a", Value.num 1)]) ++ "\"")) :=
  ⟨rfl, rfl, rfl, by decide⟩

/-- C4 (amended): the encoder raises `LookupError` carrying the fully
qualified class name exactly when the marshal-table lookup fails (on success
it marshals and wraps, adding no lookup error of its own); the decoder on a
recognized tagged value whose tag is hashable (boolean, number or string — in
particular every tag written by `wrap_state_dict`) raises `LookupError`
carrying the unresolved type name exactly when the unmarshal-table lookup
fails, and on success applies the found entry; a sequence- or dict-valued tag
instead raises the uncaught `TypeError` from hashing the key, before any
lookup. -/
theorem C4_unknown_lookup_errors (c : Codec) (s : Serializer) (x : PyObject)
    (v t st : Value) (ys : List Value) (fs : List (String × Value)) :
    (tableGet s.marshallers x.cls = none →
      default_encoder c s x = Except.error (PyErr.lookupError
        ("no marshaller found for type \"" ++ x.cls.qualname ++ "\""))) ∧
    (∀ e, tableGet s.marshallers x.cls = some e →
      default_encoder c s x = (do
        let st2 ← e.marshaller x
        pure (if e.wrap_state then wrap_state_dict c e.typename st2 else st2))) ∧
    (unwrap_state_dict c v = Except.ok (t, st) → t ≠ Value.null →
      pyHashable t = true →
      tableGet s.unmarshallers t = none →
      default_decoder c s v = Except.error (PyErr.lookupError
        ("no unmarshaller found for type \"" ++ pyStr t ++ "\""))) ∧
    (∀ e, unwrap_state_dict c v = Except.ok (t, st) → t ≠ Value.null →
      tableGet s.unmarshallers t = some e →
      default_decoder c s v = applyUnmarshal e st) ∧
    (unwrap_state_dict c v = Except.ok (Value.seq ys, st) →
      default_decoder c s v =
        Except.error (PyErr.typeError "unhashable type: \x27list\x27")) ∧
    (unwrap_state_dict c v = Except.ok (Value.comp fs, st) →
      default_decoder c s v =
        Except.error (PyErr.typeError "unhashable type: \x27dict\x27")) :=
  ⟨fun h => default_encoder_unknown c s x h,
   fun e he => default_encoder_found c s x e he,
   fun hu ht hhash hl => default_decoder_unknown c s v t st hu ht hhash hl,
   fun e hu ht hl => default_decoder_found c s v t st e hu ht hl,
   fun hu => default_decoder_unhashable_seq c s v st ys hu,
   fun hu => default_decoder_unhashable_comp c s v st fs hu⟩

/-- C4 (witness): encoding an unregistered instance and decoding a tagged
composite with an unregistered string name both raise the `LookupError`
carrying the respective name, while a dict-valued tag raises the `TypeError`
instead. -/
theorem C4_unknown_lookup_errors_witness :
    default_encoder defaultCodec emptySer pointObj = Except.error
      (PyErr.lookupError "no marshaller found for type \"tests.Point\"") ∧
    default_decoder defaultCodec emptySer taggedMissing = Except.error
      (PyErr.lookupError "no unmarshaller found for type \"Missing\"") ∧
    default_decoder defaultCodec emptySer dictTagged = Except.error
      (PyErr.typeError "unhashable type: \x27dict\x27") := by
  refine ⟨?_, ?_, ?_⟩
  · exact (C4_unknown_lookup_errors defaultCodec emptySer pointObj Value.null
      Value.null Value.null [] []).1 rfl
  · exact (C4_unknown_lookup_errors defaultCodec emptySer pointObj
      taggedMissing (Value.str "Missing") Value.null [] []).2.2.1 rfl
      (by decide) rfl rfl
  · exact (C4_unknown_lookup_errors defaultCodec emptySer pointObj
      dictTagged Value.null (Value.num 2) [] [("a", Value.num 1)]).2.2.2.2.2 rfl

/-- C5 (confirmed): on a recognized tagged value whose name resolves, with a
registered class the decoder allocates an uninitialized instance (`pyNew`
sets no attributes and runs no initializer), populates it in place with
`unmarshal_fn(instance, state)` and returns that instance; without a class it
returns `unmarshal_fn(state)` directly. -/
theorem C5_reconstruction (c : Codec) (s : Serializer) (v t st : Value)
    (cls : PyClass) (f : PyObject → Value → Except PyErr PyObject)
    (g : Value → Except PyErr Decoded)
    (hu : unwrap_state_dict c v = Except.ok (t, st)) (ht : t ≠ Value.null) :
    (tableGet s.unmarshallers t = some (UnmarshalEntry.withClass cls f) →
      pyNew cls = ⟨cls, [], false⟩ ∧
      default_decoder c s v = (do
        let inst ← f (pyNew cls) st
        pure (Decoded.obj inst))) ∧
    (tableGet s.unmarshallers t = some (UnmarshalEntry.noClass g) →
      default_decoder c s v = g st) := by
  constructor
  · intro hl
    exact ⟨rfl, default_decoder_found c s v t st _ hu ht hl⟩
  · intro hl
    exact default_decoder_found c s v t st _ hu ht hl

/-- C5 (witness): decoding the wrapped `pointState` through `serPoint`
allocates a fresh `clsPoint` instance and populates it to `pointObj`. -/
theorem C5_reconstruction_witness :
    default_decoder defaultCodec serPoint
        (Value.comp [("__type__", Value.str "Point"), ("state", pointState)]) =
      Except.ok (Decoded.obj pointObj) := by
  have h := (C5_reconstruction defaultCodec serPoint
    (Value.comp [("__type__", Value.str "Point"), ("state", pointState)])
    (Value.str "Point") pointState clsPoint unmarshalPoint failUnmarshal
    rfl (by decide)).1 rfl
  rw [h.2]
  rfl

/-- C6 (confirmed): for a registered instance the encoder returns the
marshalled state as-is when the entry's wrap flag is false, and the wrapped
state when it is true. -/
theorem C6_wrap_flag_dispatch (c : Codec) (s : Serializer) (x : PyObject)
    (tn : String) (m : PyObject → Except PyErr Value) (st : Value)
    (hmx : m x = Except.ok st) :
    (tableGet s.marshallers x.cls = some ⟨tn, m, false⟩ →
      default_encoder c s x = Except.ok st) ∧
    (tableGet s.marshallers x.cls = some ⟨tn, m, true⟩ →
      default_encoder c s x = Except.ok (wrap_state_dict c tn st)) := by
  constructor <;> intro h <;>
    rw [default_encoder_found c s x _ h] <;>
    simp [Bind.bind, Except.bind, hmx, Pure.pure, Except.pure]

/-- C6 (witness): the bare-state serializer returns the unwrapped string, the
wrapping serializer returns the wrapped state. -/
theorem C6_wrap_flag_dispatch_witness :
    default_encoder defaultCodec serBare pointObj =
      Except.ok (Value.str "hello") ∧
    default_encoder defaultCodec serPoint pointObj =
      Except.ok (wrap_state_dict defaultCodec "Point" pointState) :=
  ⟨(C6_wrap_flag_dispatch defaultCodec serBare pointObj "Point" bareMarshal
      (Value.str "hello") rfl).1 rfl,
   (C6_wrap_flag_dispatch defaultCodec serPoint pointObj "Point" marshalPoint
      pointState rfl).2 rfl⟩

/-- C7 (confirmed): with the codec constructed as `type_key="t"`,
`state_key="s"`, encoding a registered wrap-enabled instance yields a
composite with exactly the keys "t" and "s", that composite round-trips back
to the instance, and a two-entry composite under the default keys
`"__type__"`/`"state"` is passed through as untagged data. -/
theorem C7_custom_keys (s : Serializer) (x : PyObject) (tn : String)
    (m : PyObject → Except PyErr Value) (st : Value) (e : UnmarshalEntry)
    (a b : Value)
    (hm : tableGet s.marshallers x.cls = some ⟨tn, m, true⟩)
    (hmx : m x = Except.ok st) :
    (default_encoder customCodec s x =
      Except.ok (Value.comp [("t", Value.str tn), ("s", st)])) ∧
    (tableGet s.unmarshallers (Value.str tn) = some e → entryInverts e st x →
      default_decoder customCodec s
          (Value.comp [("t", Value.str tn), ("s", st)]) =
        Except.ok (Decoded.obj x)) ∧
    (default_decoder customCodec s (Value.comp [("__type__", a), ("state", b)]) =
      Except.ok (Decoded.prim (Value.comp [("__type__", a), ("state", b)]))) := by
  refine ⟨?_, fun hl hinv => ?_, ?_⟩
  · rw [default_encoder_found customCodec s x ⟨tn, m, true⟩ hm]
    simp [Bind.bind, Except.bind, hmx, Pure.pure, Except.pure]
    rfl
  · have hu : unwrap_state_dict customCodec
        (Value.comp [("t", Value.str tn), ("s", st)]) =
        Except.ok (Value.str tn, st) := by
      have : Value.comp [("t", Value.str tn), ("s", st)] =
          wrap_state_dict customCodec tn st := rfl
      rw [this, unwrap_wrap customCodec (by decide) tn st]
    rw [default_decoder_found customCodec s _ (Value.str tn) st e hu
      (fun h => Value.noConfusion h) hl]
    cases e with
    | withClass cls f =>
      simp only [entryInverts] at hinv
      simp [applyUnmarshal, hinv, Bind.bind, Except.bind, Pure.pure, Except.pure]
    | noClass g =>
      simp only [entryInverts] at hinv
      simpa [applyUnmarshal] using hinv
  · exact default_decoder_sentinel customCodec s _ _
      (unwrap_comp_not_tagged customCodec _ (Or.inr rfl))

/-- C7 (witness): the custom-key round trip on `pointObj`, and the
default-keyed composite passed through untouched even though "Point" is
registered. -/
theorem C7_custom_keys_witness :
    default_encoder customCodec serPoint pointObj =
      Except.ok (Value.comp [("t", Value.str "Point"), ("s", pointState)]) ∧
    default_decoder customCodec serPoint
        (Value.comp [("t", Value.str "Point"), ("s", pointState)]) =
      Except.ok (Decoded.obj pointObj) ∧
    default_decoder customCodec serPoint
        (Value.comp [("__type__", Value.str "Point"), ("state", pointState)]) =
      Except.ok (Decoded.prim
        (Value.comp [("__type__", Value.str "Point"), ("state", pointState)])) := by
  have h := C7_custom_keys serPoint pointObj "Point" marshalPoint pointState
    (UnmarshalEntry.withClass clsPoint unmarshalPoint) (Value.str "Point")
    pointState rfl rfl
  exact ⟨h.1, h.2.1 rfl rfl, h.2.2⟩

/-- C8 (confirmed): an error raised by a user-supplied marshal function
propagates unchanged out of `default_encoder`, and an error raised by either
kind of user-supplied unmarshal function propagates unchanged out of
`default_decoder`; in particular a user `KeyError` is never translated into
the codec's `LookupError`. -/
theorem C8_user_errors_propagate (c : Codec) (s : Serializer) (x : PyObject)
    (v t st : Value) (err : PyErr) (cls : PyClass)
    (f : PyObject → Value → Except PyErr PyObject)
    (g : Value → Except PyErr Decoded) :
    (∀ e, tableGet s.marshallers x.cls = some e →
      e.marshaller x = Except.error err →
      default_encoder c s x = Except.error err) ∧
    (unwrap_state_dict c v = Except.ok (t, st) → t ≠ Value.null →
      tableGet s.unmarshallers t = some (UnmarshalEntry.withClass cls f) →
      f (pyNew cls) st = Except.error err →
      default_decoder c s v = Except.error err) ∧
    (unwrap_state_dict c v = Except.ok (t, st) → t ≠ Value.null →
      tableGet s.unmarshallers t = some (UnmarshalEntry.noClass g) →
      g st = Except.error err →
      default_decoder c s v = Except.error err) := by
  refine ⟨fun e he hm => ?_, fun hu ht hl hf => ?_, fun hu ht hl hg => ?_⟩
  · rw [default_encoder_found c s x e he]
    simp [Bind.bind, Except.bind, hm]
  · rw [default_decoder_found c s v t st _ hu ht hl]
    simp [applyUnmarshal, Bind.bind, Except.bind, hf]
  · rw [default_decoder_found c s v t st _ hu ht hl]
    exact hg

/-- C8 (witness): user `KeyError`s from `serFail`'s marshal and unmarshal
functions come out of the codec as the same `KeyError`s, not `LookupError`s. -/
theorem C8_user_errors_propagate_witness :
    default_encoder defaultCodec serFail pointObj =
      Except.error (PyErr.keyError "x") ∧
    default_decoder defaultCodec serFail
        (Value.comp [("__type__", Value.str "Point"), ("state", Value.null)]) =
      Except.error (PyErr.keyError "y") := by
  constructor
  · exact (C8_user_errors_propagate defaultCodec serFail pointObj Value.null
      Value.null Value.null (PyErr.keyError "x") clsPoint unmarshalPoint
      failUnmarshal).1 ⟨"Point", failMarshal, true⟩ rfl rfl
  · exact (C8_user_errors_propagate defaultCodec serFail pointObj
      (Value.comp [("__type__", Value.str "Point"), ("state", Value.null)])
      (Value.str "Point") Value.null (PyErr.keyError "y") clsPoint
      unmarshalPoint failUnmarshal).2.2 rfl (by decide) rfl rfl

/-- C9 (confirmed): a two-entry composite with a present non-null tag slot but
no entry at the configured `state_key` unwraps to the tag paired with null —
not the sentinel — so `default_decoder` treats it as tagged and applies the
registered unmarshal entry to a null state. -/
theorem C9_tag_without_state (c : Codec) (s : Serializer)
    (es : List (String × Value)) (w : Value) (e : UnmarshalEntry)
    (hlen : es.length = 2) (ht : pyGet es c.type_key = w) (hw : w ≠ Value.null)
    (hs : dictGet es c.state_key = none) :
    unwrap_state_dict c (Value.comp es) = Except.ok (w, Value.null) ∧
    (tableGet s.unmarshallers w = some e →
      default_decoder c s (Value.comp es) = applyUnmarshal e Value.null) := by
  have hu : unwrap_state_dict c (Value.comp es) = Except.ok (w, Value.null) := by
    rw [unwrap_comp_tagged c es w hlen ht hw]
    simp [pyGet, hs]
  exact ⟨hu, fun hl => default_decoder_found c s _ w Value.null e hu hw hl⟩

/-- C9 (witness): a composite tagged "Point" whose second entry is not the
state key decodes by invoking the registered unmarshaller on a null state. -/
theorem C9_tag_without_state_witness :
    unwrap_state_dict defaultCodec
        (Value.comp [("__type__", Value.str "Point"), ("other", Value.num 1)]) =
      Except.ok (Value.str "Point", Value.null) ∧
    default_decoder defaultCodec serPoint
        (Value.comp [("__type__", Value.str "Point"), ("other", Value.num 1)]) =
      applyUnmarshal (UnmarshalEntry.withClass clsPoint unmarshalPoint)
        Value.null := by
  have h := C9_tag_without_state defaultCodec serPoint
    [("__type__", Value.str "Point"), ("other", Value.num 1)]
    (Value.str "Point") (UnmarshalEntry.withClass clsPoint unmarshalPoint)
    rfl rfl (by decide) rfl
  exact ⟨h.1, h.2 rfl⟩

/-- C10 (confirmed): the encoder dispatches on the exact runtime class only —
when that class has no marshal entry it raises the `LookupError` with the
class's qualified name even if some superclass of the class is registered. -/
theorem C10_exact_class_dispatch (c : Codec) (s : Serializer) (x : PyObject)
    (hnone : tableGet s.marshallers x.cls = none)
    (_hsuper : ∃ p ∈ s.marshallers, p.1.qualname ∈ x.cls.bases) :
    default_encoder c s x = Except.error (PyErr.lookupError
      ("no marshaller found for type \"" ++ x.cls.qualname ++ "\"")) :=
  default_encoder_unknown c s x hnone

/-- C10 (witness): encoding a `clsDerived` instance fails with the lookup
error although its base class `clsBase` is registered. -/
theorem C10_exact_class_dispatch_witness :
    default_encoder defaultCodec serBaseOnly derivedObj = Except.error
      (PyErr.lookupError "no marshaller found for type \"tests.Derived\"") :=
  C10_exact_class_dispatch defaultCodec serBaseOnly derivedObj rfl
    ⟨(clsBase, ⟨"Base", marshalPoint, true⟩),
      List.mem_cons_self _ _, by decide⟩

end AsphaltSerialization
